import Mathlib

/-!
Shallow embedding of the Parlor restaurant-recommendation client
(Angular/TypeScript) for verification of its specification.

The embedding covers:
* `SearchComponent` (src/components/search/search.component.ts): the
  autocomplete controller — debounced input pipeline, prediction fetch,
  keyboard navigation, prediction selection, and the distance validator.
* `LocationService` (src/services/location.service.ts): the two-tier
  geolocation acquisition policy.
* `App.handleSearch` (src/main.ts): the search orchestrator — the
  recommendation fetch, the per-result enrichment fan-out (AI summary +
  image preload), the `forkJoin` fan-in, and the reveal.
* `ResultsComponent` (src/components/results/results.component.ts):
  detail selection and the on-demand summary fetch.

JavaScript numbers are modelled as `Rat`; the JS `%` operator on integers
is truncated remainder, modelled as `Int.tmod`.  Asynchronous callbacks
are modelled as explicit state-transition functions; each transition also
returns the requests it dispatches, so that "no fetch is dispatched"
claims are about a visible output, not about silence.
-/

/-- Data model (src/models/restaurant.model.ts): user search preferences.
`maxDistance` is a JS number bound to a numeric form input. -/
structure UserPreferences where
  maxDistance : Rat
  minRating : Rat
  dietaryRestrictions : List String
  favoriteStyles : List String
deriving DecidableEq

/-- Data model: an AI-generated restaurant summary. -/
structure AIGeneratedSummary where
  restaurantId : String
  summary : String
  highlights : List String
  recommendations : List String
deriving DecidableEq

/-- Data model: a restaurant returned by the backend.  `aiSummary` is
attached after creation by the enrichment fan-out; `photoUrl` is optional. -/
structure Restaurant where
  id : String
  name : String
  address : String
  distance : Rat
  rating : Rat
  priceLevel : Nat
  cuisine : List String
  phone : Option String
  website : Option String
  openNow : Option Bool
  latitude : Rat
  longitude : Rat
  photoUrl : Option String
  aiSummary : Option AIGeneratedSummary
deriving DecidableEq

/-- Data model: a search request sent to the backend. -/
structure SearchRequest where
  address : String
  latitude : Option Rat
  longitude : Option Rat
  preferences : Option UserPreferences
deriving DecidableEq

/-- A provider autocomplete prediction (duck-typed in the source: only
`place_id` and `description` are consumed). -/
structure Prediction where
  place_id : String
  description : String
deriving DecidableEq

/-! ### Distance validation (SearchComponent.validateDistance) -/

/-- The value read from the bound numeric input `preferences.maxDistance`.
A numeric input bound through `ngModel` yields either a JS number or a
falsy non-number (null for an emptied field, NaN for unparsable input);
`DistanceInput.empty` covers the latter: both are falsy and compare false. -/
inductive DistanceInput where
  | val (x : Rat)
  | empty
deriving DecidableEq

/-- SearchComponent.validateDistance (search.component.ts:52-64):
`let dist = this.preferences.maxDistance;
 if (!dist || dist < 1) dist = 1;
 if (dist > 50) dist = 50;
 this.preferences.maxDistance = dist;`
`!dist` is true exactly for the falsy inputs: 0, null/NaN/empty. -/
def validateDistance : DistanceInput → Rat
  | .empty => 1
  | .val x =>
    let d1 := if x = 0 ∨ x < 1 then 1 else x
    if d1 > 50 then 50 else d1

/-! ### Autocomplete controller state (SearchComponent) -/

/-- The fields of `SearchComponent` that the autocomplete flow reads and
writes.  `sessionToken` is opaque; it is modelled as a `Nat`. -/
structure AutocompleteState where
  address : String
  predictions : List Prediction
  showPredictions : Bool
  activePredictionIndex : Int
  errorMessage : String
  sessionToken : Nat
deriving DecidableEq

/-- A dispatched autocomplete-predictions request (query + session token). -/
structure AutocompleteRequest where
  query : String
  sessionToken : Nat
deriving DecidableEq

/-- SearchComponent.fetchPredictions (search.component.ts:126-154), up to
the point where the HTTP call is (or is not) dispatched:
`this.errorMessage = '';
 if (!query || query.length < 3) { this.predictions = []; this.showPredictions = false; return; }
 this.apiService.getAutocompletePredictions(query, this.sessionToken).subscribe(...)`.
The returned `Option AutocompleteRequest` is the dispatched fetch, if any;
an empty query is falsy, and its length 0 is below 3 anyway. -/
def fetchPredictions (query : String) (s : AutocompleteState) :
    AutocompleteState × Option AutocompleteRequest :=
  let s := { s with errorMessage := "" }
  if query.isEmpty ∨ query.length < 3 then
    ({ s with predictions := [], showPredictions := false }, none)
  else
    (s, some { query := query, sessionToken := s.sessionToken })

/-- The `next` callback of the prediction fetch (search.component.ts:138-145):
`this.predictions = predictions;
 this.showPredictions = predictions.length > 0;
 this.activePredictionIndex = -1;` -/
def onPredictionsSuccess (ps : List Prediction) (s : AutocompleteState) :
    AutocompleteState :=
  { s with predictions := ps,
           showPredictions := decide (0 < ps.length),
           activePredictionIndex := -1 }

/-- The `error` callback of the prediction fetch (search.component.ts:146-153):
it only logs and runs `this.predictions = [];` — no other field is touched
and no alert or error message is produced. -/
def onPredictionsError (s : AutocompleteState) : AutocompleteState :=
  { s with predictions := [] }

/-! ### Keyboard navigation and selection (SearchComponent) -/

/-- The keys the handler distinguishes; `other` is any other key. -/
inductive Key where
  | arrowDown
  | arrowUp
  | enter
  | escape
  | other
deriving DecidableEq

/-- SearchComponent.selectPrediction (search.component.ts:156-174), up to
the dispatch of the place-details request:
`this.address = prediction.description;
 this.showPredictions = false;
 this.apiService.getGooglePlaceDetails(prediction.place_id).subscribe(...)`.
The returned `Option String` is the `place_id` of the dispatched
place-details fetch. -/
def selectPrediction (p : Prediction) (s : AutocompleteState) :
    AutocompleteState × Option String :=
  ({ s with address := p.description, showPredictions := false }, some p.place_id)

/-- SearchComponent.onKeydown (search.component.ts:107-124).  JS `%` on
integers is truncated remainder (`Int.tmod`).  The source indexes
`this.predictions[this.activePredictionIndex]` on Enter; in every state
the component produces, the index lies in `[-1, predictions.length)`, so
the out-of-range lookup (JS `undefined`) is modelled as dispatching
nothing. -/
def onKeydown (k : Key) (s : AutocompleteState) :
    AutocompleteState × Option String :=
  if s.showPredictions = false ∨ s.predictions.length = 0 then (s, none)
  else
    match k with
    | .arrowDown =>
        let i := (s.activePredictionIndex + 1).tmod s.predictions.length
        ({ s with activePredictionIndex := i }, none)
    | .arrowUp =>
        let i := (s.activePredictionIndex - 1 + s.predictions.length).tmod
          s.predictions.length
        ({ s with activePredictionIndex := i }, none)
    | .enter =>
        if 0 ≤ s.activePredictionIndex then
          match s.predictions.get? s.activePredictionIndex.toNat with
          | some p => selectPrediction p s
          | none => (s, none)
        else (s, none)
    | .escape => ({ s with showPredictions := false }, none)
    | .other => (s, none)

/-! ### Debounced input pipeline (SearchComponent.ngOnInit)

`this.searchSubject.pipe(debounceTime(300), distinctUntilChanged())
   .subscribe(query => this.fetchPredictions(query))`
with `onInputChange()` feeding `this.searchSubject.next(this.address)` on
every keystroke.  A keystroke sequence is a list of (time, value) pairs
with strictly increasing times; `debounceTime d` re-arms a `d`-ms timer on
every source emission and emits the latest value when the timer fires, so
a keystroke is emitted (at its time + d) exactly when the next keystroke
arrives no earlier than d ms later, or when it is the last one.
`distinctUntilChanged` drops an emission equal to the previously emitted
value. -/

/-- rxjs `debounceTime d` over a timed event list: an event is emitted,
delayed by `d`, iff no later event pre-empts its timer. -/
def debounceTimed (d : Nat) : List (Nat × String) → List (Nat × String)
  | [] => []
  | [(t, v)] => [(t + d, v)]
  | (t, v) :: (t2, v2) :: rest =>
    if t + d ≤ t2 then (t + d, v) :: debounceTimed d ((t2, v2) :: rest)
    else debounceTimed d ((t2, v2) :: rest)

/-- rxjs `distinctUntilChanged` (on the value component), keeping times. -/
def distinctTimedFrom (prev : String) : List (Nat × String) → List (Nat × String)
  | [] => []
  | (t, v) :: rest =>
    if v = prev then distinctTimedFrom prev rest
    else (t, v) :: distinctTimedFrom v rest

/-- rxjs `distinctUntilChanged`: the first emission always passes. -/
def distinctTimed : List (Nat × String) → List (Nat × String)
  | [] => []
  | (t, v) :: rest => (t, v) :: distinctTimedFrom v rest

/-- The whole input pipeline of SearchComponent.ngOnInit
(search.component.ts:72-78): the timed values handed to
`fetchPredictions`, given the timed keystroke sequence. -/
def submittedQueries (keys : List (Nat × String)) : List (Nat × String) :=
  distinctTimed (debounceTimed 300 keys)

/-! ### Geolocation provider (LocationService) -/

/-- The option object passed to `navigator.geolocation.getCurrentPosition`. -/
structure GeoOptions where
  enableHighAccuracy : Bool
  timeout : Nat
  maximumAge : Nat
deriving DecidableEq

/-- location.service.ts:16-20. -/
def highAccuracyOptions : GeoOptions :=
  { enableHighAccuracy := true, timeout := 5000, maximumAge := 0 }

/-- location.service.ts:23-27. -/
def lowAccuracyOptions : GeoOptions :=
  { enableHighAccuracy := false, timeout := 10000, maximumAge := 0 }

/-- A geographic coordinate pair, as delivered by the browser. -/
structure GeoPosition where
  latitude : Rat
  longitude : Rat
deriving DecidableEq

/-- The outcome of a single `navigator.geolocation.getCurrentPosition`
call: the success callback with a position, or the error callback with a
`GeolocationPositionError.code` (1 = PERMISSION_DENIED, 2 = POSITION_UNAVAILABLE,
3 = TIMEOUT). -/
inductive GeoAttemptResult where
  | success (pos : GeoPosition)
  | failure (code : Nat)
deriving DecidableEq

/-- What LocationService.getCurrentPosition surfaces to its subscriber. -/
inductive GeoOutcome where
  | unsupported
  | position (pos : GeoPosition)
  | geoError (code : Nat)
deriving DecidableEq

/-- LocationService.getCurrentPosition (location.service.ts:8-65).  The
browser is modelled by `supported` (whether `navigator.geolocation`
exists) and `attempt`, the browser's response to a `getCurrentPosition`
call with the given options.  Returns the surfaced outcome together with
the list of attempts made, in order and with the exact options used:
high accuracy first; on error code 1 fail immediately with that error; on
any other error retry once with the low-accuracy options and surface that
retry's success or failure. -/
def getCurrentPosition (supported : Bool)
    (attempt : GeoOptions → GeoAttemptResult) :
    GeoOutcome × List GeoOptions :=
  if supported = false then (.unsupported, [])
  else
    match attempt highAccuracyOptions with
    | .success pos => (.position pos, [highAccuracyOptions])
    | .failure code =>
      if code = 1 then (.geoError code, [highAccuracyOptions])
      else
        match attempt lowAccuracyOptions with
        | .success pos =>
            (.position pos, [highAccuracyOptions, lowAccuracyOptions])
        | .failure fallbackCode =>
            (.geoError fallbackCode, [highAccuracyOptions, lowAccuracyOptions])

/-! ### Search orchestrator (App.handleSearch, src/main.ts) -/

/-- The error object the recommendation subscription receives; the backend
may attach a structured detail at `error.error?.detail` (absent or empty
string both fall through `||` to the generic message). -/
structure ApiError where
  detail : Option String
deriving DecidableEq

/-- The alert text built in the error callback (main.ts:286):
`alert('Error: ' + (error.error?.detail || 'Unable to fetch recommendations. Please try again.'))`. -/
def recommendationAlert (e : ApiError) : String :=
  "Error: " ++
    match e.detail with
    | some d => if d.isEmpty then "Unable to fetch recommendations. Please try again." else d
    | none => "Unable to fetch recommendations. Please try again."

/-- rxjs `forkJoin` over a list of already-settled task values: it emits
the collected values once every task has completed — but over an empty
task array it completes immediately **without emitting**, which is
modelled as `none`. -/
def forkJoin {α : Type} (tasks : List α) : Option (List α) :=
  if tasks.isEmpty then none else some tasks

/-- The summary fan-out task for one restaurant (main.ts:229-237): on
success the summary is written onto the restaurant (`r.aiSummary = summary`);
on failure `catchError` settles the task with null and the restaurant is
left untouched.  `summaryResult r` is the outcome of that restaurant's
summary fetch. -/
def applySummaryTask (summaryResult : Restaurant → Option AIGeneratedSummary)
    (r : Restaurant) : Restaurant :=
  match summaryResult r with
  | some s => { r with aiSummary := some s }
  | none => r

/-- The image preload task for one restaurant (main.ts:241-261): a
restaurant without a `photoUrl` settles immediately with true; otherwise
the task settles with whether the image loaded (`onload` → true,
`onerror` → false).  Either way the task settles and never errors. -/
def imageTaskResult (imageLoads : Restaurant → Bool) (r : Restaurant) : Bool :=
  match r.photoUrl with
  | none => true
  | some _ => imageLoads r

/-- The fields of the root `App` component that `handleSearch` touches. -/
structure AppState where
  restaurants : List Restaurant
  lastSearchRequest : Option SearchRequest
  loading : Bool
  loadingMessage : String
deriving DecidableEq

/-- Observable side effects of one `handleSearch` run: which summary
fetches and image probes were dispatched, which alerts were raised, and
whether (and after what settling delay, in ms) the result list was
revealed. -/
structure SearchTrace where
  summaryRequests : List String
  imageProbes : List (Option String)
  alerts : List String
  revealed : Option (List Restaurant)
  revealDelayMs : Nat
deriving DecidableEq

/-- App.handleSearch (main.ts:212-291).  The recommendation response and
the per-task outcomes are inputs; the run is deterministic given them.
On fetch error: alert, clear results, stop loading, dispatch nothing.
On fetch success with results: dispatch one summary task and one image
task per restaurant, join them with `forkJoin`, and — when the join
emits — reveal the annotated list after a fixed 1500 ms delay and stop
loading.  When the join never emits (empty task array, i.e. zero
results), the `next` callback never runs: nothing is revealed and
`loading` remains true. -/
def handleSearch (st : AppState) (req : SearchRequest)
    (recResult : Except ApiError (List Restaurant))
    (summaryResult : Restaurant → Option AIGeneratedSummary)
    (imageLoads : Restaurant → Bool) : AppState × SearchTrace :=
  let st := { st with lastSearchRequest := some req, loading := true,
                      loadingMessage := "Finding the perfect pizza spots...",
                      restaurants := [] }
  match recResult with
  | .error e =>
      ({ st with restaurants := [], loading := false },
       { summaryRequests := [], imageProbes := [],
         alerts := [recommendationAlert e], revealed := none,
         revealDelayMs := 0 })
  | .ok results =>
      let summaryTasks := results.map fun r => (summaryResult r).isSome
      let imageTasks := results.map (imageTaskResult imageLoads)
      let annotated := results.map (applySummaryTask summaryResult)
      let trBase : SearchTrace :=
        { summaryRequests := results.map (·.id),
          imageProbes := results.map (·.photoUrl),
          alerts := [], revealed := none, revealDelayMs := 0 }
      match forkJoin (summaryTasks ++ imageTasks) with
      | some _ =>
          ({ st with restaurants := annotated, loading := false,
                     loadingMessage := "Almost ready..." },
           { trBase with revealed := some annotated, revealDelayMs := 1500 })
      | none =>
          ({ st with loadingMessage := "Finalizing your personalized menu..." },
           trBase)

/-! ### Results presenter (ResultsComponent) -/

/-- The fields of `ResultsComponent` that detail selection touches. -/
structure ResultsState where
  selectedRestaurant : Option Restaurant
  aiSummary : Option AIGeneratedSummary
  loadingSummary : Bool
deriving DecidableEq

/-- ResultsComponent.loadAISummary (search.component.ts:516-530), up to
the dispatch of the summary request:
`this.loadingSummary = true; this.aiSummary = null;
 this.apiService.getAISummary(restaurantId).subscribe(...)`.
The returned `Option String` is the restaurant id of the dispatched
summary fetch. -/
def loadAISummary (restaurantId : String) (s : ResultsState) :
    ResultsState × Option String :=
  ({ s with loadingSummary := true, aiSummary := none }, some restaurantId)

/-- ResultsComponent.selectRestaurant (search.component.ts:499-509):
`this.selectedRestaurant = restaurant;
 if (restaurant.aiSummary) { this.aiSummary = restaurant.aiSummary; this.loadingSummary = false; }
 else { this.loadAISummary(restaurant.id); }` -/
def selectRestaurant (r : Restaurant) (s : ResultsState) :
    ResultsState × Option String :=
  let s := { s with selectedRestaurant := some r }
  match r.aiSummary with
  | some sum => ({ s with aiSummary := some sum, loadingSummary := false }, none)
  | none => loadAISummary r.id s

/-- The `next` callback of the on-demand summary fetch
(search.component.ts:521-524): `this.aiSummary = summary;
this.loadingSummary = false;` — note that it writes only the component's
display field, never the restaurant entity's `aiSummary`. -/
def onSummarySuccess (sum : AIGeneratedSummary) (s : ResultsState) :
    ResultsState :=
  { s with aiSummary := some sum, loadingSummary := false }

/-! ### Concrete fixtures used by witnesses and counterexamples -/

/-- A sample prediction. -/
def pA : Prediction := { place_id := "pa", description := "A Street Pizza" }

/-- A sample prediction. -/
def pB : Prediction := { place_id := "pb", description := "B Street Pizza" }

/-- A sample prediction. -/
def pC : Prediction := { place_id := "pc", description := "C Street Pizza" }

/-- A dropdown showing three predictions, cursor at the initial -1. -/
def sDrop : AutocompleteState :=
  { address := "piz", predictions := [pA, pB, pC], showPredictions := true,
    activePredictionIndex := -1, errorMessage := "", sessionToken := 7 }

/-- The same dropdown with the cursor on the second prediction. -/
def sNav : AutocompleteState := { sDrop with activePredictionIndex := 1 }

/-- A sample AI summary. -/
def sum1 : AIGeneratedSummary :=
  { restaurantId := "r1", summary := "Great pies", highlights := [],
    recommendations := [] }

/-- A second sample AI summary. -/
def sum2 : AIGeneratedSummary :=
  { restaurantId := "r2", summary := "Crispy crust", highlights := [],
    recommendations := [] }

/-- A restaurant with no photo and no pre-fetched summary. -/
def rPlain : Restaurant :=
  { id := "r1", name := "Pie One", address := "1 A St", distance := 1,
    rating := 4, priceLevel := 2, cuisine := ["pizza"], phone := none,
    website := none, openNow := none, latitude := 0, longitude := 0,
    photoUrl := none, aiSummary := none }

/-- A restaurant with a photo and no pre-fetched summary. -/
def rTwo : Restaurant :=
  { rPlain with id := "r2", name := "Pie Two", photoUrl := some "p2.jpg" }

/-- A restaurant already carrying a pre-fetched summary. -/
def rCached : Restaurant := { rPlain with aiSummary := some sum1 }

/-- The results presenter before any selection. -/
def resultsInit : ResultsState :=
  { selectedRestaurant := none, aiSummary := none, loadingSummary := false }

/-- The root component before any search. -/
def appInit : AppState :=
  { restaurants := [], lastSearchRequest := none, loading := false,
    loadingMessage := "" }

/-- A sample search request. -/
def req0 : SearchRequest :=
  { address := "Current Location", latitude := some 10, longitude := some 20,
    preferences := none }

/-- Every summary fetch fails. -/
def sfNone : Restaurant → Option AIGeneratedSummary := fun _ => none

/-- The summary fetch succeeds only for restaurant r2. -/
def sfTwo : Restaurant → Option AIGeneratedSummary :=
  fun r => if r.id = "r2" then some sum2 else none

/-- Every image preload fails. -/
def ioFalse : Restaurant → Bool := fun _ => false

/-- A browser whose high-accuracy attempt times out (code 3) and whose
low-accuracy attempt returns latitude 10, longitude 20. -/
def attemptFallback : GeoOptions → GeoAttemptResult :=
  fun o => if o.enableHighAccuracy then .failure 3
           else .success { latitude := 10, longitude := 20 }

/-! ### Theorems -/

/-- C3: for every `preferences.maxDistance` input (including 0, negative,
and non-numeric/empty input), after `validateDistance` runs the stored
value lies in [1, 50]: inputs below 1 become 1, inputs above 50 become 50,
and inputs already in [1, 50] are unchanged. -/
theorem validateDistance_clamps (i : DistanceInput) :
    (1 ≤ validateDistance i ∧ validateDistance i ≤ 50) ∧
    (∀ x : Rat, i = DistanceInput.val x →
      (x < 1 → validateDistance i = 1) ∧
      (50 < x → validateDistance i = 50) ∧
      (1 ≤ x → x ≤ 50 → validateDistance i = x)) := by
  cases i with
  | empty =>
    refine ⟨⟨by norm_num [validateDistance], by norm_num [validateDistance]⟩, ?_⟩
    intro x h
    cases h
  | val x =>
    by_cases h0 : x = 0 ∨ x < 1
    · have hx1 : x < 1 := by
        rcases h0 with h0 | h0
        · rw [h0]; norm_num
        · exact h0
      have hv : validateDistance (DistanceInput.val x) = 1 := by
        simp only [validateDistance, if_pos h0]
        norm_num
      refine ⟨⟨by rw [hv], by rw [hv]; norm_num⟩, ?_⟩
      intro y hy
      cases hy
      exact ⟨fun _ => hv, fun h50 => absurd h50 (by linarith),
             fun h1 _ => absurd h1 (by linarith)⟩
    · have hx1 : 1 ≤ x := by
        push_neg at h0
        exact h0.2
      by_cases h50 : x > 50
      · have hv : validateDistance (DistanceInput.val x) = 50 := by
          simp only [validateDistance, if_neg h0]
          rw [if_pos h50]
        refine ⟨⟨by rw [hv]; norm_num, by rw [hv]⟩, ?_⟩
        intro y hy
        cases hy
        exact ⟨fun h => absurd h (by linarith), fun _ => hv,
               fun _ h => absurd h (by linarith)⟩
      · have hv : validateDistance (DistanceInput.val x) = x := by
          simp only [validateDistance, if_neg h0]
          rw [if_neg h50]
        push_neg at h50
        refine ⟨⟨by rw [hv]; exact hx1, by rw [hv]; exact h50⟩, ?_⟩
        intro y hy
        cases hy
        exact ⟨fun h => absurd h (by linarith), fun h => absurd h (by linarith),
               fun _ _ => hv⟩

/-- C3 witness: an input of 75 is clamped to 50. -/
theorem validateDistance_clamps_witness :
    validateDistance (DistanceInput.val 75) = 50 :=
  ((validateDistance_clamps (DistanceInput.val 75)).2 75 rfl).2.1 (by norm_num)

/-- C8: for every submitted query of length below 3 (including the empty
string), `fetchPredictions` dispatches no fetch, clears the prediction
list, and hides the dropdown (it also clears the error message, as the
source does unconditionally). -/
theorem fetchPredictions_short_query (q : String) (s : AutocompleteState)
    (h : q.length < 3) :
    fetchPredictions q s =
      ({ s with errorMessage := "", predictions := [],
                showPredictions := false }, none) := by
  unfold fetchPredictions
  rw [if_pos (Or.inr h)]

/-- C8 witness: the two-character query "pi" dispatches nothing and
clears the dropdown. -/
theorem fetchPredictions_short_query_witness :
    fetchPredictions "pi" sDrop =
      ({ sDrop with errorMessage := "", predictions := [],
                    showPredictions := false }, none) :=
  fetchPredictions_short_query "pi" sDrop (by decide)

/-- C6 counterexample: the claim says the failure handler leaves the
dropdown-visible flag false, but `onPredictionsError` only clears the
prediction list; starting from a state whose dropdown is visible
(`sDrop`), the flag is still true after the handler runs, so the claimed
conjunction fails. -/
theorem onPredictionsError_flag_counterexample :
    ¬ ((onPredictionsError sDrop).predictions = [] ∧
       (onPredictionsError sDrop).showPredictions = false) := by
  decide

/-- C6 amended: on every autocomplete fetch failure the handler clears
the prediction list silently — no error message, alert, or other field is
touched — but it leaves the dropdown-visible flag unchanged rather than
setting it to false; with the list empty, the dropdown has nothing to
show and every subsequent keyboard event is a no-op that dispatches
nothing. -/
theorem onPredictionsError_clears_silently (s : AutocompleteState) :
    (onPredictionsError s).predictions = [] ∧
    (onPredictionsError s).showPredictions = s.showPredictions ∧
    (onPredictionsError s).errorMessage = s.errorMessage ∧
    (onPredictionsError s).address = s.address ∧
    ∀ k, onKeydown k (onPredictionsError s) = (onPredictionsError s, none) := by
  refine ⟨rfl, rfl, rfl, rfl, ?_⟩
  intro k
  unfold onKeydown
  simp [onPredictionsError]

/-- C10: with the dropdown visible over k ≥ 1 predictions and the active
index at the no-selection sentinel -1, one ArrowDown moves to index 0 but
one ArrowUp moves to (k - 2) mod k — the second-to-last prediction for
k ≥ 2 — because the wrap-around arithmetic treats -1 as a position. -/
theorem arrowUp_from_sentinel (s : AutocompleteState)
    (hshow : s.showPredictions = true)
    (hidx : s.activePredictionIndex = -1)
    (hk : 1 ≤ s.predictions.length) :
    (onKeydown Key.arrowDown s).1.activePredictionIndex = 0 ∧
    (onKeydown Key.arrowUp s).1.activePredictionIndex =
      ((s.predictions.length : Int) - 2) % (s.predictions.length : Int) := by
  have hguard : ¬ (s.showPredictions = false ∨ s.predictions.length = 0) := by
    rw [hshow]
    rintro (h | h)
    · exact absurd h (by decide)
    · omega
  unfold onKeydown
  rw [if_neg hguard, if_neg hguard]
  simp only [hidx]
  constructor
  · norm_num
  · have harith : (-1 : Int) - 1 + (s.predictions.length : Int) =
        (s.predictions.length : Int) - 2 := by ring
    rw [harith]
    rcases Nat.lt_or_ge s.predictions.length 2 with h2 | h2
    · have h1 : s.predictions.length = 1 := by omega
      rw [h1]
      decide
    · have hnn : (0 : Int) ≤ (s.predictions.length : Int) - 2 := by
        omega
      have hlt : (s.predictions.length : Int) - 2 <
          (s.predictions.length : Int) := by omega
      rw [Int.tmod_eq_emod hnn (by omega)]

/-- C10 witness: with three predictions and the cursor at -1, ArrowDown
lands on index 0 while ArrowUp lands on index 1, the second-to-last. -/
theorem arrowUp_from_sentinel_witness :
    (onKeydown Key.arrowDown sDrop).1.activePredictionIndex = 0 ∧
    (onKeydown Key.arrowUp sDrop).1.activePredictionIndex =
      ((3 : Int) - 2) % (3 : Int) := by
  have h := arrowUp_from_sentinel sDrop rfl rfl (by decide)
  exact h

/-- C4: `getCurrentPosition` attempts high accuracy first (5s timeout);
a PermissionDenied failure (code 1) is surfaced immediately with no
retry; any other failure triggers exactly one low-accuracy retry (10s
timeout, no caching) whose success or failure is surfaced; a
high-accuracy success is surfaced directly. -/
theorem getCurrentPosition_policy (attempt : GeoOptions → GeoAttemptResult) :
    (highAccuracyOptions.enableHighAccuracy = true ∧
     highAccuracyOptions.timeout = 5000 ∧
     lowAccuracyOptions.enableHighAccuracy = false ∧
     lowAccuracyOptions.timeout = 10000 ∧
     lowAccuracyOptions.maximumAge = 0) ∧
    (∀ pos, attempt highAccuracyOptions = GeoAttemptResult.success pos →
      getCurrentPosition true attempt =
        (GeoOutcome.position pos, [highAccuracyOptions])) ∧
    (attempt highAccuracyOptions = GeoAttemptResult.failure 1 →
      getCurrentPosition true attempt =
        (GeoOutcome.geoError 1, [highAccuracyOptions])) ∧
    (∀ c, c ≠ 1 → attempt highAccuracyOptions = GeoAttemptResult.failure c →
      ((getCurrentPosition true attempt).2 =
          [highAccuracyOptions, lowAccuracyOptions] ∧
       (∀ pos, attempt lowAccuracyOptions = GeoAttemptResult.success pos →
          (getCurrentPosition true attempt).1 = GeoOutcome.position pos) ∧
       (∀ c2, attempt lowAccuracyOptions = GeoAttemptResult.failure c2 →
          (getCurrentPosition true attempt).1 = GeoOutcome.geoError c2))) := by
  refine ⟨⟨rfl, rfl, rfl, rfl, rfl⟩, ?_, ?_, ?_⟩
  · intro pos hhigh
    unfold getCurrentPosition
    rw [if_neg (by decide)]
    rw [hhigh]
  · intro hhigh
    unfold getCurrentPosition
    rw [if_neg (by decide)]
    rw [hhigh]
    rfl
  · intro c hc hhigh
    unfold getCurrentPosition
    rw [if_neg (by decide)]
    rw [hhigh]
    simp only [if_neg hc]
    refine ⟨?_, ?_, ?_⟩
    · cases hlow : attempt lowAccuracyOptions <;> simp [hlow]
    · intro pos hlow
      rw [hlow]
    · intro c2 hlow
      rw [hlow]

/-- C4 witness: a high-accuracy timeout (code 3) followed by a successful
low-accuracy retry surfaces the retry's position and makes exactly the
two attempts, high-accuracy options first. -/
theorem getCurrentPosition_policy_witness :
    (getCurrentPosition true attemptFallback).2 =
      [highAccuracyOptions, lowAccuracyOptions] ∧
    (getCurrentPosition true attemptFallback).1 =
      GeoOutcome.position { latitude := 10, longitude := 20 } := by
  have h := (getCurrentPosition_policy attemptFallback).2.2.2 3 (by decide) rfl
  exact ⟨h.1, h.2.1 { latitude := 10, longitude := 20 } rfl⟩

/-- C7 counterexample: double selection of the same restaurant is not
idempotent with respect to summary fetches.  `rPlain` carries no summary;
the first selection dispatches a summary fetch, its success callback
stores the summary only in the component's display field (never on the
restaurant entity), so a second selection of the same restaurant
dispatches a second fetch. -/
theorem selectRestaurant_refetch_counterexample :
    (selectRestaurant rPlain resultsInit).2 = some "r1" ∧
    (selectRestaurant rPlain
      (onSummarySuccess sum1 (selectRestaurant rPlain resultsInit).1)).2 =
      some "r1" := by
  decide

/-- C7 amended: a restaurant that already carries a pre-fetched
`aiSummary` triggers no summary request on selection — the cached summary
is shown immediately with the loading flag off; but the on-demand fetch
of a summary-less restaurant writes only the component's display state,
not the restaurant entity, so selecting the same summary-less restaurant
again after a successful first fetch issues another summary request. -/
theorem selectRestaurant_cache_semantics (r : Restaurant) (s : ResultsState) :
    (∀ sum, r.aiSummary = some sum →
      selectRestaurant r s =
        ({ s with selectedRestaurant := some r, aiSummary := some sum,
                  loadingSummary := false }, none)) ∧
    (r.aiSummary = none → ∀ sum,
      (selectRestaurant r s).2 = some r.id ∧
      (selectRestaurant r
        (onSummarySuccess sum (selectRestaurant r s).1)).2 = some r.id) := by
  constructor
  · intro sum hsum
    unfold selectRestaurant
    rw [hsum]
  · intro hnone sum
    constructor
    · unfold selectRestaurant
      rw [hnone]
      rfl
    · unfold selectRestaurant
      rw [hnone]
      rfl

/-- C7 witness: selecting `rCached`, which already carries `sum1`, issues
no request and shows the cached summary immediately. -/
theorem selectRestaurant_cache_semantics_witness :
    selectRestaurant rCached resultsInit =
      ({ resultsInit with selectedRestaurant := some rCached,
                          aiSummary := some sum1,
                          loadingSummary := false }, none) :=
  (selectRestaurant_cache_semantics rCached resultsInit).1 sum1 rfl

/-- C9: a failed recommendation fetch ends the search: one alert is
raised, built from the backend's structured error detail when present and
from the generic fallback otherwise; the displayed list is cleared, the
loading flag is reset, and no enrichment task is dispatched. -/
theorem handleSearch_error_path (st : AppState) (req : SearchRequest)
    (e : ApiError) (sf : Restaurant → Option AIGeneratedSummary)
    (io : Restaurant → Bool) :
    (handleSearch st req (Except.error e) sf io).1.restaurants = [] ∧
    (handleSearch st req (Except.error e) sf io).1.loading = false ∧
    (handleSearch st req (Except.error e) sf io).2.summaryRequests = [] ∧
    (handleSearch st req (Except.error e) sf io).2.imageProbes = [] ∧
    (handleSearch st req (Except.error e) sf io).2.revealed = none ∧
    (handleSearch st req (Except.error e) sf io).2.alerts =
      [recommendationAlert e] ∧
    (∀ d, e.detail = some d → d.isEmpty = false →
      recommendationAlert e = "Error: " ++ d) ∧
    (e.detail = none → recommendationAlert e =
      "Error: Unable to fetch recommendations. Please try again.") := by
  refine ⟨rfl, rfl, rfl, rfl, rfl, rfl, ?_, ?_⟩
  · intro d hd hne
    simp [recommendationAlert, hd, hne]
  · intro hd
    simp [recommendationAlert, hd]

/-- C9 witness: a backend error with detail "Rate limited" yields exactly
the alert "Error: Rate limited" while the list stays empty and loading is
reset. -/
theorem handleSearch_error_path_witness :
    (handleSearch appInit req0 (Except.error { detail := some "Rate limited" })
        sfNone ioFalse).2.alerts = ["Error: Rate limited"] ∧
    (handleSearch appInit req0 (Except.error { detail := some "Rate limited" })
        sfNone ioFalse).1.loading = false := by
  have h := handleSearch_error_path appInit req0 { detail := some "Rate limited" }
    sfNone ioFalse
  refine ⟨?_, h.2.1⟩
  have hmsg := h.2.2.2.2.2.2.1 "Rate limited" rfl rfl
  exact (h.2.2.2.2.2.1).trans (congrArg (fun x => [x]) hmsg)

/-- C1 counterexample: the claim quantifies over every N, but a
successful recommendation fetch returning zero restaurants produces an
empty `forkJoin` task array, which completes without ever emitting; the
`next` callback never runs, so nothing is revealed and the loading flag
stays true — the operation hangs instead of revealing the 0 results. -/
theorem handleSearch_empty_batch_hangs :
    (handleSearch appInit req0 (Except.ok []) sfNone ioFalse).2.revealed
      = none ∧
    (handleSearch appInit req0 (Except.ok []) sfNone ioFalse).1.loading
      = true ∧
    (handleSearch appInit req0 (Except.ok []) sfNone ioFalse).1.restaurants
      = [] := by
  decide

/-- Closed form of the success path of `handleSearch` for a nonempty
result list: the `forkJoin` over the 2N settled tasks emits, so the
`next` callback runs, revealing the annotated list after the fixed
1500 ms delay. -/
theorem handleSearch_ok_eq (st : AppState) (req : SearchRequest)
    (results : List Restaurant)
    (sf : Restaurant → Option AIGeneratedSummary)
    (io : Restaurant → Bool) (h : results ≠ []) :
    handleSearch st req (Except.ok results) sf io =
      ({ restaurants := results.map (applySummaryTask sf),
         lastSearchRequest := some req, loading := false,
         loadingMessage := "Almost ready..." },
       { summaryRequests := results.map (·.id),
         imageProbes := results.map (·.photoUrl), alerts := [],
         revealed := some (results.map (applySummaryTask sf)),
         revealDelayMs := 1500 }) := by
  have hne : ((results.map fun r => (sf r).isSome) ++
      results.map (imageTaskResult io)).isEmpty = false := by
    cases results with
    | nil => exact absurd rfl h
    | cons a l => rfl
  have hfj : forkJoin ((results.map fun r => (sf r).isSome) ++
      results.map (imageTaskResult io)) =
      some ((results.map fun r => (sf r).isSome) ++
        results.map (imageTaskResult io)) := by
    unfold forkJoin
    rw [hne]
    rfl
  unfold handleSearch
  simp only [hfj]


/-- C1 amended: for every successful recommendation fetch returning N ≥ 1
restaurants, the orchestrator dispatches one AI-summary task and one
image-preload task per restaurant (the image task auto-satisfied when the
restaurant has no photoUrl — `imageTaskResult` settles it with true
without probing), tolerates every individual task failure (a failed
summary leaves that restaurant's `aiSummary` unchanged, a failed preload
settles as unavailable), and reveals exactly those N restaurants, however
the per-task outcomes `sf` and `io` fall, after every task has settled
plus a fixed 1500 ms delay, resetting the loading flag; for N = 0 the
join never emits and nothing is revealed. -/
theorem handleSearch_fanout_fanin (st : AppState) (req : SearchRequest)
    (results : List Restaurant)
    (sf : Restaurant → Option AIGeneratedSummary)
    (io : Restaurant → Bool) (h : results ≠ []) :
    (handleSearch st req (Except.ok results) sf io).2.summaryRequests =
      results.map (·.id) ∧
    (handleSearch st req (Except.ok results) sf io).2.imageProbes =
      results.map (·.photoUrl) ∧
    (handleSearch st req (Except.ok results) sf io).2.revealed =
      some (results.map (applySummaryTask sf)) ∧
    (results.map (applySummaryTask sf)).length = results.length ∧
    (handleSearch st req (Except.ok results) sf io).1.restaurants =
      results.map (applySummaryTask sf) ∧
    (handleSearch st req (Except.ok results) sf io).1.loading = false ∧
    (handleSearch st req (Except.ok results) sf io).2.revealDelayMs = 1500 ∧
    (handleSearch st req (Except.ok results) sf io).2.alerts = [] ∧
    (∀ r ∈ results, sf r = none → applySummaryTask sf r = r) ∧
    (∀ r, r.photoUrl = none → imageTaskResult io r = true) := by
  rw [handleSearch_ok_eq st req results sf io h]
  refine ⟨rfl, rfl, rfl, by rw [List.length_map], rfl, rfl, rfl, rfl, ?_, ?_⟩
  · intro r _ hsf
    unfold applySummaryTask
    rw [hsf]
  · intro r hurl
    unfold imageTaskResult
    rw [hurl]

/-- C1 witness: for the two restaurants r1 (no photo, summary fetch
fails) and r2 (photo, summary fetch succeeds) under `sfTwo`/`ioFalse`
(every image preload fails), the batch still reveals both restaurants,
r1 without a summary and r2 with `sum2`, after the 1500 ms delay, with
one summary task and one image probe per restaurant. -/
theorem handleSearch_fanout_fanin_witness :
    (handleSearch appInit req0 (Except.ok [rPlain, rTwo]) sfTwo
        ioFalse).2.summaryRequests = ["r1", "r2"] ∧
    (handleSearch appInit req0 (Except.ok [rPlain, rTwo]) sfTwo
        ioFalse).2.revealed =
      some [applySummaryTask sfTwo rPlain, applySummaryTask sfTwo rTwo] ∧
    (handleSearch appInit req0 (Except.ok [rPlain, rTwo]) sfTwo
        ioFalse).1.loading = false ∧
    (handleSearch appInit req0 (Except.ok [rPlain, rTwo]) sfTwo
        ioFalse).2.revealDelayMs = 1500 ∧
    applySummaryTask sfTwo rPlain = rPlain ∧
    (applySummaryTask sfTwo rTwo).aiSummary = some sum2 := by
  have h := handleSearch_fanout_fanin appInit req0 [rPlain, rTwo] sfTwo ioFalse
    (by decide)
  refine ⟨h.1.trans (by decide), h.2.2.1.trans rfl, h.2.2.2.2.2.1,
    h.2.2.2.2.2.2.1, ?_, by decide⟩
  exact h.2.2.2.2.2.2.2.2.1 rPlain (by decide) (by decide)

/-- C5: while the dropdown is visible with at least one prediction,
ArrowDown and ArrowUp move the active index circularly over the k
predictions (computed modulo k, so both ends wrap) without dispatching
anything; Enter with an active index ≥ 0 selects the prediction at that
index — setting the input text to its description, hiding the dropdown,
and dispatching its place-details fetch; Escape hides the dropdown,
changing nothing else (in particular not the typed address); when the
dropdown is hidden or the prediction list is empty, every key leaves the
state unchanged and dispatches nothing. -/
theorem onKeydown_visible_contract (s : AutocompleteState) (k : Key) :
    (s.showPredictions = true → s.predictions ≠ [] →
      ((0 ≤ s.activePredictionIndex →
          s.activePredictionIndex < s.predictions.length →
          ((onKeydown Key.arrowDown s).1.activePredictionIndex =
             (s.activePredictionIndex + 1) % (s.predictions.length : Int) ∧
           (onKeydown Key.arrowDown s).2 = none ∧
           (onKeydown Key.arrowUp s).1.activePredictionIndex =
             (s.activePredictionIndex - 1 + s.predictions.length) %
               (s.predictions.length : Int) ∧
           (onKeydown Key.arrowUp s).2 = none ∧
           (∀ p, s.predictions.get? s.activePredictionIndex.toNat = some p →
             onKeydown Key.enter s =
               ({ s with address := p.description, showPredictions := false },
                some p.place_id)))) ∧
       onKeydown Key.escape s = ({ s with showPredictions := false }, none))) ∧
    ((s.showPredictions = false ∨ s.predictions = []) →
      onKeydown k s = (s, none)) := by
  constructor
  · intro hshow hne
    have hguard : ¬ (s.showPredictions = false ∨ s.predictions.length = 0) := by
      rw [hshow]
      rintro (h | h)
      · exact absurd h (by decide)
      · exact hne (List.length_eq_zero.mp h)
    constructor
    · intro hi hilt
      refine ⟨?_, ?_, ?_, ?_, ?_⟩
      · unfold onKeydown
        rw [if_neg hguard]
        exact Int.tmod_eq_emod (by omega) (by omega)
      · unfold onKeydown
        rw [if_neg hguard]
      · unfold onKeydown
        rw [if_neg hguard]
        exact Int.tmod_eq_emod (by omega) (by omega)
      · unfold onKeydown
        rw [if_neg hguard]
      · intro p hp
        unfold onKeydown
        rw [if_neg hguard]
        simp only [if_pos hi, hp]
        rfl
    · unfold onKeydown
      rw [if_neg hguard]
  · intro hcase
    unfold onKeydown
    rcases hcase with h | h
    · rw [if_pos (Or.inl h)]
    · rw [if_pos (Or.inr (by rw [h]; rfl))]

/-- C5 witness: with three predictions visible and the cursor on index 1,
ArrowDown moves to index 2, Enter selects prediction pB (address set to
its description, dropdown hidden, details fetch for "pb" dispatched), and
Escape merely hides the dropdown. -/
theorem onKeydown_visible_contract_witness :
    (onKeydown Key.arrowDown sNav).1.activePredictionIndex = 2 ∧
    onKeydown Key.enter sNav =
      ({ sNav with address := "B Street Pizza", showPredictions := false },
       some "pb") ∧
    onKeydown Key.escape sNav = ({ sNav with showPredictions := false }, none) := by
  have h := (onKeydown_visible_contract sNav Key.other).1 rfl (by decide)
  have harr := h.1 (by decide) (by decide)
  refine ⟨harr.1.trans (by decide), ?_, h.2⟩
  exact (harr.2.2.2.2 pB (by decide)).trans (by decide)

/-- Every emission of `debounceTimed d` originates from a keystroke that
was followed by a quiet period of at least `d` ms (or was the last), and
is emitted exactly `d` ms after it; with strictly increasing keystroke
times, no other keystroke falls strictly inside that quiet window. -/
theorem debounceTimed_mem (d : Nat) (ks : List (Nat × String))
    (hs : List.Pairwise (fun a b : Nat × String => a.1 < b.1) ks) :
    ∀ e ∈ debounceTimed d ks, ∃ t0, (t0, e.2) ∈ ks ∧ e.1 = t0 + d ∧
      ∀ p ∈ ks, p.1 ≤ t0 ∨ t0 + d ≤ p.1 := by
  induction ks with
  | nil =>
    intro e he
    simp [debounceTimed] at he
  | cons a rest ih =>
    obtain ⟨t, v⟩ := a
    cases rest with
    | nil =>
      intro e he
      simp only [debounceTimed, List.mem_singleton] at he
      subst he
      refine ⟨t, by simp, rfl, ?_⟩
      intro p hp
      simp only [List.mem_singleton] at hp
      subst hp
      left
      exact le_refl _
    | cons b rest2 =>
      obtain ⟨t2, v2⟩ := b
      rw [List.pairwise_cons] at hs
      obtain ⟨ha, hrest⟩ := hs
      intro e he
      by_cases hd : t + d ≤ t2
      · rw [debounceTimed, if_pos hd] at he
        rcases List.mem_cons.mp he with he1 | he2
        · subst he1
          refine ⟨t, by simp, rfl, ?_⟩
          intro p hp
          rcases List.mem_cons.mp hp with hp1 | hp2
          · subst hp1
            left
            exact le_refl _
          · right
            rcases List.mem_cons.mp hp2 with hpb | hpr
            · subst hpb
              exact hd
            · have hlt := (List.pairwise_cons.mp hrest).1 p hpr
              simp only at hlt
              omega
        · obtain ⟨t0, hmem, heq, hall⟩ := ih hrest e he2
          refine ⟨t0, List.mem_cons_of_mem _ hmem, heq, ?_⟩
          intro p hp
          rcases List.mem_cons.mp hp with hp1 | hp2
          · subst hp1
            left
            have := ha (t0, e.2) hmem
            simp only at this
            omega
          · exact hall p hp2
      · rw [debounceTimed, if_neg hd] at he
        obtain ⟨t0, hmem, heq, hall⟩ := ih hrest e he
        refine ⟨t0, List.mem_cons_of_mem _ hmem, heq, ?_⟩
        intro p hp
        rcases List.mem_cons.mp hp with hp1 | hp2
        · subst hp1
          left
          have := ha (t0, e.2) hmem
          simp only at this
          omega
        · exact hall p hp2

/-- `distinctTimedFrom` only drops elements. -/
theorem distinctTimedFrom_sublist (prev : String) (l : List (Nat × String)) :
    List.Sublist (distinctTimedFrom prev l) l := by
  induction l generalizing prev with
  | nil => simp [distinctTimedFrom]
  | cons x rest ih =>
    obtain ⟨t, v⟩ := x
    rw [distinctTimedFrom]
    by_cases h : v = prev
    · rw [if_pos h]
      exact (ih prev).cons _
    · rw [if_neg h]
      exact (ih v).cons₂ _

/-- The output of `distinctTimedFrom prev` has no two adjacent equal
values, and its head differs from `prev`. -/
theorem distinctTimedFrom_chain (prev : String) (l : List (Nat × String)) :
    List.Chain' (fun a b : Nat × String => a.2 ≠ b.2)
      (distinctTimedFrom prev l) ∧
    ∀ y ∈ (distinctTimedFrom prev l).head?, y.2 ≠ prev := by
  induction l generalizing prev with
  | nil => simp [distinctTimedFrom]
  | cons x rest ih =>
    obtain ⟨t, v⟩ := x
    rw [distinctTimedFrom]
    by_cases h : v = prev
    · rw [if_pos h]
      exact ih prev
    · rw [if_neg h]
      refine ⟨?_, ?_⟩
      · rw [List.chain'_cons']
        refine ⟨?_, (ih v).1⟩
        intro y hy
        exact Ne.symm ((ih v).2 y hy)
      · intro y hy
        simp only [List.head?_cons, Option.mem_def, Option.some.injEq] at hy
        subst hy
        exact h

/-- C2: for every strictly time-ordered keystroke sequence feeding the
autocomplete input, every value the pipeline submits to the prediction
fetch comes from a keystroke followed by a quiet period of at least
300 ms (no further keystroke falls strictly inside that window) and is
submitted 300 ms after it; and no submitted value equals the immediately
preceding submitted value (consecutive duplicates are suppressed). -/
theorem debouncePipeline_contract (keys : List (Nat × String))
    (hs : List.Pairwise (fun a b : Nat × String => a.1 < b.1) keys) :
    (∀ e ∈ submittedQueries keys, ∃ t0, (t0, e.2) ∈ keys ∧ e.1 = t0 + 300 ∧
      ∀ p ∈ keys, p.1 ≤ t0 ∨ t0 + 300 ≤ p.1) ∧
    List.Chain' (fun a b : Nat × String => a.2 ≠ b.2)
      (submittedQueries keys) := by
  have hsub : List.Sublist (submittedQueries keys) (debounceTimed 300 keys) := by
    unfold submittedQueries
    cases debounceTimed 300 keys with
    | nil => simp [distinctTimed]
    | cons x rest =>
      obtain ⟨t, v⟩ := x
      rw [distinctTimed]
      exact (distinctTimedFrom_sublist v rest).cons₂ _
  constructor
  · intro e he
    exact debounceTimed_mem 300 keys hs e (hsub.subset he)
  · unfold submittedQueries
    cases debounceTimed 300 keys with
    | nil => simp [distinctTimed]
    | cons x rest =>
      obtain ⟨t, v⟩ := x
      rw [distinctTimed]
      rw [List.chain'_cons']
      refine ⟨?_, (distinctTimedFrom_chain v rest).1⟩
      intro y hy
      exact Ne.symm ((distinctTimedFrom_chain v rest).2 y hy)

/-- A keystroke sequence: "pi", "piz", "pizz" typed rapidly, a pause,
"pizza" at 600 ms, and the same value re-submitted at 1000 ms. -/
def ks0 : List (Nat × String) :=
  [(0, "pi"), (100, "piz"), (200, "pizz"), (600, "pizza"), (1000, "pizza")]

/-- C2 witness: on `ks0` the pipeline submits only "pizz" (at 500 ms,
after the 300 ms quiet period following its keystroke at 200 ms) and
"pizza" (at 900 ms); the repeated "pizza" emission at 1300 ms is
suppressed as a consecutive duplicate, and no two adjacent submitted
values are equal. -/
theorem debouncePipeline_contract_witness :
    List.Chain' (fun a b : Nat × String => a.2 ≠ b.2)
      (submittedQueries ks0) ∧
    submittedQueries ks0 = [(500, "pizz"), (900, "pizza")] :=
  ⟨(debouncePipeline_contract ks0 (by decide)).2, by decide⟩
